import Mathlib

/-!
# Verification of the podtrace in-kernel tracer core

Shallow embedding of the BPF probe programs under `src/bpf/` of the
podtrace repository, together with theorems settling the spec claims.

Modelling conventions:
* 64-bit machine integers are `Nat` with explicit `% 2^64` where the C
  arithmetic can wrap; signed values crossing the s32/s64 boundary are `Int`.
* BPF hash maps are partial functions `Nat → Option V`; LRU eviction is not
  modelled (no claim depends on it).
* Byte strings (the `char[128]` fields) are `List Nat` of byte values.
* The per-CPU scratch event buffer acquisition (`get_event_buf`) is a `Bool`
  parameter `bufAvail`: `false` models the "buffer unavailable" path
  (`if (!e) ...` in C).
* Ring-buffer submission (`bpf_ringbuf_output`) is modelled as appending the
  event to the returned event list.
* Clock reads (`bpf_ktime_get_ns`) are explicit `Nat` parameters, one per
  textual call site where the distinction matters.
-/

namespace Podtrace

/-- Byte strings (`char[MAX_STRING_LEN]` values) as lists of byte values. -/
abbrev Str := List Nat

/-- A BPF hash map, modelled as a partial function from u64 keys. -/
def PMap (V : Type) := Nat → Option V

/-- `bpf_map_update_elem` with `BPF_ANY`. -/
def PMap.upd {V : Type} (m : PMap V) (k : Nat) (v : V) : PMap V :=
  fun x => if x = k then some v else m x

/-- `bpf_map_delete_elem`. -/
def PMap.del {V : Type} (m : PMap V) (k : Nat) : PMap V :=
  fun x => if x = k then none else m x

/-- The empty map. -/
def PMap.empty {V : Type} : PMap V := fun _ => none

/-- Event kinds used by the claims (a subset of the `event_type` enum in
`events.h` plus the protocol extensions referenced by the decoder files). -/
inductive EType where
  | CONNECT
  | TCP_SEND
  | READ
  | OPEN
  | SCHED_SWITCH
  | RESOURCE_LIMIT
  | POOL_ACQUIRE
  | POOL_RELEASE
  | POOL_EXHAUSTED
  | FASTCGI_RESPONSE
  | KAFKA_PRODUCE
  | GRPC_METHOD
  deriving DecidableEq, Repr

/-- The fixed event record (`struct event` in `events.h`), restricted to the
fields the claims speak about. -/
structure Event where
  timestamp : Nat
  pid : Nat
  etype : EType
  latency_ns : Nat
  error : Int
  bytes : Nat
  tcp_state : Nat
  target : Str
  details : Str
  deriving DecidableEq, Repr

/-- Reinterpret the low 32 bits of a `Nat` as a signed 32-bit value
(the `(s32)` cast). -/
def toS32 (n : Nat) : Int :=
  if n % 2 ^ 32 < 2 ^ 31 then ((n % 2 ^ 32 : Nat) : Int)
  else ((n % 2 ^ 32 : Nat) : Int) - 2 ^ 32

/-- `get_key` from `helpers.h`: `((u64)pid << 32) | tid`.  With `tid < 2^32`
the bitwise-or of disjoint fields is addition. -/
def get_key (pid tid : Nat) : Nat := pid * 2 ^ 32 + tid

/-- `calc_latency` from `helpers.h`: `now > start ? now - start : 0`. -/
def calc_latency (now start : Nat) : Nat := if now > start then now - start else 0

/-- `__builtin_bswap16` on a u16 value. -/
def bswap16 (x : Nat) : Nat := (x % 256) * 256 + (x / 256) % 256

/-- `__builtin_bswap32` on a u32 value. -/
def bswap32 (x : Nat) : Nat :=
  (x % 256) * 2 ^ 24 + (x / 2 ^ 8 % 256) * 2 ^ 16 +
  (x / 2 ^ 16 % 256) * 2 ^ 8 + (x / 2 ^ 24) % 256

/-- One guarded byte write of `format_ip_port` (`helpers.h`):
`if (idx < max_idx) buf[idx++] = c;` with `max_idx = MAX_STRING_LEN - 1 = 127`.
The pair is the buffer contents so far and the running index. -/
def wr (s : Str × Nat) (c : Nat) : Str × Nat :=
  if s.2 < 127 then (s.1 ++ [c], s.2 + 1) else s

/-- `format_ip_port` from `helpers.h`: zero-padded dotted-quad and port,
built by 21 guarded byte writes; the trailing NUL is the end of the list. -/
def format_ip_port (ip port : Nat) : Str :=
  let a := ip / 2 ^ 24 % 256
  let b := ip / 2 ^ 16 % 256
  let c := ip / 2 ^ 8 % 256
  let d := ip % 256
  let p := port
  let s1 := wr ([], 0) (48 + a / 100 % 10)
  let s2 := wr s1 (48 + a / 10 % 10)
  let s3 := wr s2 (48 + a % 10)
  let s4 := wr s3 46
  let s5 := wr s4 (48 + b / 100 % 10)
  let s6 := wr s5 (48 + b / 10 % 10)
  let s7 := wr s6 (48 + b % 10)
  let s8 := wr s7 46
  let s9 := wr s8 (48 + c / 100 % 10)
  let s10 := wr s9 (48 + c / 10 % 10)
  let s11 := wr s10 (48 + c % 10)
  let s12 := wr s11 46
  let s13 := wr s12 (48 + d / 100 % 10)
  let s14 := wr s13 (48 + d / 10 % 10)
  let s15 := wr s14 (48 + d % 10)
  let s16 := wr s15 58
  let s17 := wr s16 (48 + p / 10000 % 10)
  let s18 := wr s17 (48 + p / 1000 % 10)
  let s19 := wr s18 (48 + p / 100 % 10)
  let s20 := wr s19 (48 + p / 10 % 10)
  let s21 := wr s20 (48 + p % 10)
  s21.1

/-- `MIN_LATENCY_NS` (`common.h`): 1 ms in nanoseconds. -/
def MIN_LATENCY_NS : Nat := 1000000

/-- `MAX_BYTES_THRESHOLD` (`common.h`): 10 MiB byte-sanity clamp. -/
def MAX_BYTES_THRESHOLD : Nat := 10 * 1024 * 1024

/-- `~0ULL`, the sentinel "no limit" value. -/
def U64_MAX : Nat := 2 ^ 64 - 1

/-- Byte `i` of a captured buffer (reads beyond the capture yield 0). -/
def byteAt (l : List Nat) (i : Nat) : Nat := l.getD i 0

/-- Saved FastCGI request state (`struct fastcgi_req` in `maps.h`). -/
structure FcgiReq where
  start_ns : Nat
  uri : Str
  fmethod : Str
  deriving DecidableEq, Repr

/-- Connection-pool state (`struct pool_state` in `maps.h`). -/
structure PoolState where
  last_use_ns : Nat
  connection_id : Nat
  in_use : Nat
  deriving DecidableEq, Repr

/-- The correlation tables shared by the probes (`maps.h`), restricted to
those the claims touch. -/
structure State where
  start_times : PMap Nat
  socket_conns : PMap Str
  syscall_paths : PMap Str
  file_paths : PMap Str
  grpc_methods : PMap Str
  redis_cmds : PMap Str
  proto_bytes : PMap Nat
  kafka_topic_names : PMap Str
  fastcgi_reqs : PMap FcgiReq
  pool_states : PMap PoolState
  pool_db_types : PMap Nat
  pool_acquire_times : PMap Nat

/-- The all-empty initial state. -/
def State.empty : State :=
  { start_times := PMap.empty, socket_conns := PMap.empty,
    syscall_paths := PMap.empty, file_paths := PMap.empty,
    grpc_methods := PMap.empty, redis_cmds := PMap.empty,
    proto_bytes := PMap.empty, kafka_topic_names := PMap.empty,
    fastcgi_reqs := PMap.empty, pool_states := PMap.empty,
    pool_db_types := PMap.empty, pool_acquire_times := PMap.empty }

/-! ## Network probes (`network.c`) -/

/-- `kprobe_tcp_sendmsg` (network.c:152): record `start_times[K] = now`. -/
def kprobe_tcp_sendmsg (s : State) (pid tid now : Nat) : State :=
  { s with start_times := s.start_times.upd (get_key pid tid) now }

/-- `kretprobe_tcp_sendmsg` (network.c:163): emit `EVENT_TCP_SEND`.
The three clock reads of the C body are modelled by a single `now`.
Note the C returns without any map cleanup when the per-CPU scratch buffer
is unavailable (`if (!e) return 0;`, network.c:181). -/
def kretprobe_tcp_sendmsg (s : State) (pid tid now : Nat) (ret : Int)
    (bufAvail : Bool) : State × List Event :=
  let key := get_key pid tid
  match s.start_times key with
  | none => (s, [])
  | some start =>
    let bytes := if 0 < ret ∧ ret < (10485760 : Int) then ret.toNat else 0
    if bufAvail then
      let target := (s.socket_conns key).getD []
      let s1 :=
        match s.socket_conns key with
        | some _ => { s with socket_conns := s.socket_conns.del key }
        | none => s
      let e : Event :=
        { timestamp := now, pid := pid, etype := EType.TCP_SEND,
          latency_ns := calc_latency now start,
          error := if ret < 0 then ret else 0,
          bytes := bytes, tcp_state := 0, target := target, details := [] }
      ({ s1 with start_times := s1.start_times.del key }, [e])
    else
      (s, [])

/-- Read-back IPv4 sockaddr (`struct sockaddr_in`, common.h). -/
structure SockaddrIn where
  sin_family : Nat
  sin_port : Nat
  s_addr : Nat
  deriving DecidableEq, Repr

/-- `kretprobe_tcp_connect` (network.c:99): emit `EVENT_CONNECT`.  `addr` is
the sockaddr read back from the preserved userspace argument pointer (`none`
models a null pointer or a failed first read).  On the AF_INET branch the C
issues a second `bpf_probe_read_user(&ip_be, 4, &addr.sin_addr.s_addr)`
(network.c:131) whose source is the probe's own kernel-stack copy of the
sockaddr; a user-space probe read of a kernel address always fails, so the
`else` branch runs and the target is emitted empty — the `format_ip_port`
call is unreachable. -/
def kretprobe_tcp_connect (s : State) (pid tid now : Nat) (ret : Int)
    (addr : Option SockaddrIn) (bufAvail : Bool) :
    State × List Event :=
  let key := get_key pid tid
  match s.start_times key with
  | none => (s, [])
  | some start =>
    if bufAvail then
      let target : Str :=
        match addr with
        | some a =>
          if a.sin_family = 2 then
            []
          else []
        | none => []
      let e : Event :=
        { timestamp := now, pid := pid, etype := EType.CONNECT,
          latency_ns := calc_latency now start, error := ret, bytes := 0,
          tcp_state := 0, target := target, details := [] }
      ({ s with start_times := s.start_times.del key }, [e])
    else
      ({ s with start_times := s.start_times.del key }, [])

/-! ## Syscall probes (`syscalls.c`) -/

/-- `kprobe_do_sys_openat2` (syscalls.c:103): record start time and capture
the filename (when the argument pointer is non-null) into `syscall_paths`. -/
def kprobe_do_sys_openat2 (s : State) (pid tid now : Nat) (filename : Option Str) :
    State :=
  let key := get_key pid tid
  let s1 := { s with start_times := s.start_times.upd key now }
  match filename with
  | some f => { s1 with syscall_paths := s1.syscall_paths.upd key f }
  | none => s1

/-- `kretprobe_do_sys_openat2` (syscalls.c:121): emit `EVENT_OPEN`.
Note the C returns without any map cleanup when the scratch buffer is
unavailable (`if (!e) return 0;`, syscalls.c:135). -/
def kretprobe_do_sys_openat2 (s : State) (pid tid now : Nat) (ret : Int)
    (bufAvail : Bool) : State × List Event :=
  let key := get_key pid tid
  match s.start_times key with
  | none => (s, [])
  | some start =>
    if bufAvail then
      let target := (s.syscall_paths key).getD []
      let s1 :=
        match s.syscall_paths key with
        | some _ => { s with syscall_paths := s.syscall_paths.del key }
        | none => s
      let e : Event :=
        { timestamp := now, pid := pid, etype := EType.OPEN,
          latency_ns := calc_latency now start,
          error := if ret < 0 then ret else 0,
          bytes := if 0 ≤ ret then ret.toNat else 0,
          tcp_state := 0, target := target, details := [] }
      ({ s1 with start_times := s1.start_times.del key }, [e])
    else
      (s, [])

/-! ## Filesystem probes (`filesystem.c`) -/

/-- `kprobe_vfs_read` (filesystem.c:63): record start time; `path = some p`
models a non-null `struct file *` whose `extract_file_path` succeeded. -/
def kprobe_vfs_read (s : State) (pid tid now : Nat) (path : Option Str) : State :=
  let key := get_key pid tid
  let s1 := { s with start_times := s.start_times.upd key now }
  match path with
  | some p => { s1 with file_paths := s1.file_paths.upd key p }
  | none => s1

/-- `kretprobe_vfs_read` (filesystem.c:82): emit `EVENT_READ` when the latency
reaches `MIN_LATENCY_NS`.  On the sub-threshold path the C deletes only
`start_times[K]` (filesystem.c:94); `file_paths[K]` is left untouched. -/
def kretprobe_vfs_read (s : State) (pid tid now : Nat) (ret : Int)
    (bufAvail : Bool) : State × List Event :=
  let key := get_key pid tid
  match s.start_times key with
  | none => (s, [])
  | some start =>
    let latency := calc_latency now start
    if latency < MIN_LATENCY_NS then
      ({ s with start_times := s.start_times.del key }, [])
    else
      let bytes := if 0 < ret ∧ ret < (10485760 : Int) then ret.toNat else 0
      if bufAvail then
        let target := (s.file_paths key).getD []
        let s1 :=
          match s.file_paths key with
          | some _ => { s with file_paths := s.file_paths.del key }
          | none => s
        let e : Event :=
          { timestamp := now, pid := pid, etype := EType.READ,
            latency_ns := latency, error := if ret < 0 then ret else 0,
            bytes := bytes, tcp_state := 0, target := target, details := [] }
        ({ s1 with start_times := s1.start_times.del key }, [e])
      else
        ({ s with start_times := s.start_times.del key }, [])

/-! ## Scheduler tracepoint (`cpu.c`) -/

/-- The trailing `if (next_pid > 0)` block of `tracepoint_sched_switch`
(cpu.c:57): set `start_times[next_pid<<32|0]` to the fresh clock read. -/
def sched_next_update (s : State) (next_pid ts_next : Nat) : State :=
  if next_pid > 0 then
    { s with start_times := s.start_times.upd (get_key next_pid 0) ts_next }
  else s

/-- `tracepoint_sched_switch` (cpu.c:8).  `ts_event` is the clock read at the
top of the handler (used for the event timestamp), `ts_lat` the read inside
`calc_latency`, `ts_next` the read before the next-task update.  On the
scratch-buffer-unavailable path the C returns early, skipping the next-task
update (cpu.c:36). -/
def tracepoint_sched_switch (s : State) (prev_pid next_pid ts_event ts_lat ts_next : Nat)
    (bufAvail : Bool) : State × List Event :=
  if prev_pid > 0 then
    let key := get_key prev_pid 0
    match s.start_times key with
    | some block_start =>
      let block_time := calc_latency ts_lat block_start
      if block_time > MIN_LATENCY_NS then
        if bufAvail then
          let e : Event :=
            { timestamp := ts_event, pid := prev_pid, etype := EType.SCHED_SWITCH,
              latency_ns := block_time, error := 0, bytes := 0, tcp_state := 0,
              target := [], details := [] }
          (sched_next_update { s with start_times := s.start_times.del key } next_pid ts_next,
           [e])
        else
          ({ s with start_times := s.start_times.del key }, [])
      else
        (sched_next_update { s with start_times := s.start_times.del key } next_pid ts_next,
         [])
    | none => (sched_next_update s next_pid ts_next, [])
  else
    (sched_next_update s next_pid ts_next, [])

/-! ## Cgroup utilization engine (`resources.c`) -/

/-- `calculate_utilization` (resources.c:12).  The product `usage * 100` is
u64 arithmetic in C, hence the explicit `% 2 ^ 64`. -/
def calculate_utilization (usage limit : Nat) : Nat :=
  if limit = 0 ∨ limit = U64_MAX then 0
  else if usage > limit then 100
  else
    let percent := usage * 100 % 2 ^ 64 / limit
    if percent > 100 then 100 else percent

/-- `check_alert_threshold` (resources.c:29).  Each `Option Nat` is the
`alert_thresholds` array slot as seen through `bpf_map_lookup_elem`
(`none` = lookup failed); a stored 0 also falls back to the default. -/
def check_alert_threshold (t_warn t_crit t_emerg : Option Nat) (utilization : Nat) : Nat :=
  let emerg := match t_emerg with | some v => if v > 0 then v else 95 | none => 95
  let crit := match t_crit with | some v => if v > 0 then v else 90 | none => 90
  let warn := match t_warn with | some v => if v > 0 then v else 80 | none => 80
  if utilization ≥ emerg then 3
  else if utilization ≥ crit then 2
  else if utilization ≥ warn then 1
  else 0

/-- The `details` string built by `emit_resource_alert` (resources.c:65):
resource name, colon, decimal utilization, percent sign.  All guarded writes
of the C fit far below `MAX_STRING_LEN`, so they are plain appends here. -/
def resource_details (resource_type utilization : Nat) : Str :=
  let name : Str :=
    if resource_type = 0 then [67, 80, 85]
    else if resource_type = 1 then [77, 69, 77]
    else if resource_type = 2 then [73, 79]
    else []
  let digits : Str :=
    if utilization ≥ 100 then [49, 48, 48]
    else if utilization ≥ 10 then [48 + utilization / 10, 48 + utilization % 10]
    else [48 + utilization]
  name ++ (58 :: digits) ++ [37]

/-- The event emitted by `emit_resource_alert` (resources.c:50); the empty
list is the scratch-buffer-unavailable path.  The `cgroup_alerts` update that
follows the emission is not claimed and not modelled. -/
def emit_resource_alert (resource_type utilization usage now : Nat)
    (bufAvail : Bool) : List Event :=
  if bufAvail then
    [{ timestamp := now, pid := 0, etype := EType.RESOURCE_LIMIT, latency_ns := 0,
       error := toS32 utilization, bytes := usage, tcp_state := resource_type,
       target := [], details := resource_details resource_type utilization }]
  else []

/-! ## Connection-pool engine (`database.c`) -/

/-- The pool-name string selected by `emit_pool_event` (database.c:30):
`"sqlite-pool"`, `"postgresql-pool"`, `"mysql-pool"` or `"default-pool"`. -/
def pool_name (db_type : Nat) : Str :=
  if db_type = 1 then [115, 113, 108, 105, 116, 101, 45, 112, 111, 111, 108]
  else if db_type = 2 then
    [112, 111, 115, 116, 103, 114, 101, 115, 113, 108, 45, 112, 111, 111, 108]
  else if db_type = 3 then [109, 121, 115, 113, 108, 45, 112, 111, 111, 108]
  else [100, 101, 102, 97, 117, 108, 116, 45, 112, 111, 111, 108]

/-- The event built by `emit_pool_event` (database.c:16).  Scratch-buffer
availability is orthogonal to the claims about the acquire state machine and
is assumed here (an unavailable buffer drops the record, §7 taxonomy 1). -/
def emit_pool_event (pid : Nat) (t : EType) (latency_ns db_type now : Nat) : Event :=
  { timestamp := now, pid := pid, etype := t, latency_ns := latency_ns, error := 0,
    bytes := 0, tcp_state := 0, target := pool_name db_type, details := [] }

/-- `handle_pool_acquire` (database.c:44). -/
def handle_pool_acquire (s : State) (pid tid key now db_type : Nat) :
    State × List Event :=
  match s.pool_states key with
  | none =>
    let new_state : PoolState := { last_use_ns := now, connection_id := tid, in_use := 1 }
    ({ s with pool_states := s.pool_states.upd key new_state,
              pool_db_types := s.pool_db_types.upd key db_type,
              pool_acquire_times := s.pool_acquire_times.upd key now },
     [emit_pool_event pid EType.POOL_ACQUIRE 0 db_type now])
  | some st =>
    if st.in_use = 0 then
      let st1 : PoolState := { st with in_use := 1, last_use_ns := now }
      ({ s with pool_states := s.pool_states.upd key st1,
                pool_db_types := s.pool_db_types.upd key db_type,
                pool_acquire_times := s.pool_acquire_times.upd key now },
       [emit_pool_event pid EType.POOL_ACQUIRE 0 db_type now])
    else
      ({ s with pool_states := s.pool_states.upd key { st with last_use_ns := now } }, [])

/-- Number of `EVENT_POOL_ACQUIRE` records in an emission list. -/
def countAcquireEvents (evs : List Event) : Nat :=
  evs.countP (fun e => decide (e.etype = EType.POOL_ACQUIRE))

/-- Run a sequence of acquires `(now, db_type)` against one key, returning
the final state and the total number of `EVENT_POOL_ACQUIRE` emissions. -/
def acquireRun (pid tid key : Nat) : State → List (Nat × Nat) → State × Nat
  | s, [] => (s, 0)
  | s, (now, db) :: rest =>
    let r := handle_pool_acquire s pid tid key now db
    let r2 := acquireRun pid tid key r.1 rest
    (r2.1, countAcquireEvents r.2 + r2.2)

/-- An `in_use` 0-to-1 transition between two observations of `pool_states[K]`:
afterwards the slot is busy, and before it was absent (creation counts as a
transition) or idle. -/
def zeroToOne (pre post : Option PoolState) : Bool :=
  (match post with
   | some st => decide (st.in_use = 1)
   | none => false) &&
  (match pre with
   | none => true
   | some st => decide (st.in_use = 0))

/-- Number of `in_use` 0-to-1 transitions along a sequence of acquires. -/
def transCount (pid tid key : Nat) : State → List (Nat × Nat) → Nat
  | _, [] => 0
  | s, (now, db) :: rest =>
    let r := handle_pool_acquire s pid tid key now db
    (if zeroToOne (s.pool_states key) (r.1.pool_states key) then 1 else 0) +
    transCount pid tid key r.1 rest

/-! ## FastCGI decoder (`fastcgi.c`) -/

/-- `kprobe_unix_stream_sendmsg` (fastcgi.c:227), the END_REQUEST side.
`hdr = some h` models a successful 16-byte `read_msghdr_data` (record header
plus END_REQUEST body); bytes are accessed as `h.getD i 0`. -/
def kprobe_unix_stream_sendmsg (s : State) (pid tid now : Nat)
    (hdr : Option (List Nat)) (bufAvail : Bool) : State × List Event :=
  match hdr with
  | none => (s, [])
  | some h =>
    if byteAt h 0 = 1 ∧ byteAt h 1 = 3 then
      let request_id := byteAt h 2 * 256 + byteAt h 3
      let req_key := get_key pid tid ^^^ request_id
      match s.fastcgi_reqs req_key with
      | none => (s, [])
      | some req =>
        let app_status :=
          byteAt h 8 * 2 ^ 24 + byteAt h 9 * 2 ^ 16 + byteAt h 10 * 2 ^ 8 + byteAt h 11
        if bufAvail then
          let e : Event :=
            { timestamp := now, pid := pid, etype := EType.FASTCGI_RESPONSE,
              latency_ns := if now > req.start_ns then now - req.start_ns else 0,
              error := toS32 app_status, bytes := 0, tcp_state := 0,
              target := req.uri, details := req.fmethod }
          ({ s with fastcgi_reqs := s.fastcgi_reqs.del req_key }, [e])
        else
          ({ s with fastcgi_reqs := s.fastcgi_reqs.del req_key }, [])
    else (s, [])

/-! ## Kafka producer probes (`kafka.c`) -/

/-- `uprobe_rd_kafka_produce` (kafka.c:86): copy the topic name (or the
zeroed stack buffer, i.e. the empty string, when the handle is unknown) into
`redis_cmds[K]`, record the start time, and stash the payload length. -/
def uprobe_rd_kafka_produce (s : State) (pid tid now rkt payload_len : Nat) : State :=
  let key := get_key pid tid
  let topic_buf : Str := (s.kafka_topic_names rkt).getD []
  let s1 := { s with redis_cmds := s.redis_cmds.upd key topic_buf }
  let s2 := { s1 with start_times := s1.start_times.upd key now }
  if payload_len > 0 ∧ payload_len < MAX_BYTES_THRESHOLD then
    { s2 with proto_bytes := s2.proto_bytes.upd key payload_len }
  else s2

/-- `uretprobe_rd_kafka_produce` (kafka.c:112): emit `EVENT_KAFKA_PRODUCE`;
both the scratch-unavailable path and the emission path delete
`start_times`, `redis_cmds` and `proto_bytes` for K. -/
def uretprobe_rd_kafka_produce (s : State) (pid tid now : Nat) (ret : Int)
    (bufAvail : Bool) : State × List Event :=
  let key := get_key pid tid
  match s.start_times key with
  | none => (s, [])
  | some start =>
    if bufAvail then
      let e : Event :=
        { timestamp := now, pid := pid, etype := EType.KAFKA_PRODUCE,
          latency_ns := calc_latency now start, error := ret,
          bytes := (s.proto_bytes key).getD 0, tcp_state := 0,
          target := [], details := (s.redis_cmds key).getD [] }
      ({ s with start_times := s.start_times.del key,
                redis_cmds := s.redis_cmds.del key,
                proto_bytes := s.proto_bytes.del key }, [e])
    else
      ({ s with start_times := s.start_times.del key,
                redis_cmds := s.redis_cmds.del key,
                proto_bytes := s.proto_bytes.del key }, [])

/-! ## Spec-side definitions (written from the specification's words, to be
compared against the definitions translated from the source) -/

/-- Spec §8: an octet zero-padded to 3 decimal digits. -/
def pad3 (x : Nat) : Str := [48 + x / 100, 48 + x / 10 % 10, 48 + x % 10]

/-- Spec §8: a port zero-padded to 5 decimal digits. -/
def pad5 (x : Nat) : Str :=
  [48 + x / 10000, 48 + x / 1000 % 10, 48 + x / 100 % 10, 48 + x / 10 % 10, 48 + x % 10]

/-- Spec §8: the expected connect target `"aaa.bbb.ccc.ddd:ppppp"`. -/
def ipPortSpec (a b c d p : Nat) : Str :=
  pad3 a ++ [46] ++ pad3 b ++ [46] ++ pad3 c ++ [46] ++ pad3 d ++ [58] ++ pad5 p

/-- Spec §4.8: a threshold slot with its default — an absent or zero slot
falls back to the default percentage. -/
def defaultThreshold (t : Option Nat) (dflt : Nat) : Nat :=
  match t with
  | some v => if v > 0 then v else dflt
  | none => dflt

/-! ## Map lemmas -/

theorem PMap.upd_self {V : Type} (m : PMap V) (k : Nat) (v : V) : m.upd k v k = some v := by
  simp [PMap.upd]

theorem PMap.upd_ne {V : Type} (m : PMap V) (k x : Nat) (v : V) (h : x ≠ k) :
    m.upd k v x = m x := by
  simp [PMap.upd, h]

theorem PMap.del_self {V : Type} (m : PMap V) (k : Nat) : m.del k k = none := by
  simp [PMap.del]

theorem PMap.del_ne {V : Type} (m : PMap V) (k x : Nat) (h : x ≠ k) : m.del k x = m x := by
  simp [PMap.del, h]

/-! ## Claim theorems -/

/-- C1 (code_bug evidence): at a concrete exit-probe invocation where
`start_times[K]` and the side-table entry for K are present but the per-CPU
scratch event buffer is unavailable, both `kretprobe_tcp_sendmsg` and
`kretprobe_do_sys_openat2` return without emitting and *without deleting*
`start_times[K]` or the side-table entry — contradicting the claim that the
entries are deleted on every return path. -/
theorem c1_exit_probes_leak_on_buffer_unavailable :
    (kretprobe_tcp_sendmsg
        { State.empty with
          start_times := PMap.empty.upd (get_key 4 7) 10,
          socket_conns := PMap.empty.upd (get_key 4 7) [65],
          syscall_paths := PMap.empty.upd (get_key 4 7) [66] }
        4 7 20 5 false).1.start_times (get_key 4 7) = some 10
    ∧ (kretprobe_tcp_sendmsg
        { State.empty with
          start_times := PMap.empty.upd (get_key 4 7) 10,
          socket_conns := PMap.empty.upd (get_key 4 7) [65],
          syscall_paths := PMap.empty.upd (get_key 4 7) [66] }
        4 7 20 5 false).1.socket_conns (get_key 4 7) = some [65]
    ∧ (kretprobe_tcp_sendmsg
        { State.empty with
          start_times := PMap.empty.upd (get_key 4 7) 10,
          socket_conns := PMap.empty.upd (get_key 4 7) [65],
          syscall_paths := PMap.empty.upd (get_key 4 7) [66] }
        4 7 20 5 false).2 = []
    ∧ (kretprobe_do_sys_openat2
        { State.empty with
          start_times := PMap.empty.upd (get_key 4 7) 10,
          socket_conns := PMap.empty.upd (get_key 4 7) [65],
          syscall_paths := PMap.empty.upd (get_key 4 7) [66] }
        4 7 20 5 false).1.start_times (get_key 4 7) = some 10
    ∧ (kretprobe_do_sys_openat2
        { State.empty with
          start_times := PMap.empty.upd (get_key 4 7) 10,
          socket_conns := PMap.empty.upd (get_key 4 7) [65],
          syscall_paths := PMap.empty.upd (get_key 4 7) [66] }
        4 7 20 5 false).1.syscall_paths (get_key 4 7) = some [66]
    ∧ (kretprobe_do_sys_openat2
        { State.empty with
          start_times := PMap.empty.upd (get_key 4 7) 10,
          socket_conns := PMap.empty.upd (get_key 4 7) [65],
          syscall_paths := PMap.empty.upd (get_key 4 7) [66] }
        4 7 20 5 false).2 = [] := by
  decide

/-- C2 (code_bug evidence): at a concrete `tcp_sendmsg` exit where
`grpc_methods[K]` holds `"/svc/Hello"`, the exit probe emits only
`EVENT_TCP_SEND`; no `EVENT_GRPC_METHOD` event follows and `grpc_methods[K]`
is left in the table — contradicting the claim (and the comment block in
`grpc.c`) that an additional `EVENT_GRPC_METHOD` is emitted. -/
theorem c2_no_grpc_method_event :
    (kretprobe_tcp_sendmsg
        { State.empty with
          start_times := PMap.empty.upd (get_key 4 7) 10,
          grpc_methods :=
            PMap.empty.upd (get_key 4 7) [47, 115, 118, 99, 47, 72, 101, 108, 108, 111] }
        4 7 20 5 true).2 =
      [{ timestamp := 20, pid := 4, etype := EType.TCP_SEND, latency_ns := 10, error := 0,
         bytes := 5, tcp_state := 0, target := [], details := [] }]
    ∧ ((kretprobe_tcp_sendmsg
        { State.empty with
          start_times := PMap.empty.upd (get_key 4 7) 10,
          grpc_methods :=
            PMap.empty.upd (get_key 4 7) [47, 115, 118, 99, 47, 72, 101, 108, 108, 111] }
        4 7 20 5 true).2.countP (fun e => decide (e.etype = EType.GRPC_METHOD)) = 0)
    ∧ (kretprobe_tcp_sendmsg
        { State.empty with
          start_times := PMap.empty.upd (get_key 4 7) 10,
          grpc_methods :=
            PMap.empty.upd (get_key 4 7) [47, 115, 118, 99, 47, 72, 101, 108, 108, 111] }
        4 7 20 5 true).1.grpc_methods (get_key 4 7) =
      some [47, 115, 118, 99, 47, 72, 101, 108, 108, 111] := by
  decide

/-- C3 (code_bug evidence): a `vfs_read` pair with a captured path and latency
0.6 ms (below the 1 ms threshold) emits nothing and deletes `start_times[K]`,
but leaves `file_paths[K]` populated — contradicting the claim that neither
table retains an entry. -/
theorem c3_fast_read_leaves_file_path :
    (kretprobe_vfs_read (kprobe_vfs_read State.empty 4 7 100 (some [47, 108, 111, 103]))
        4 7 600100 4096 true).2 = []
    ∧ (kretprobe_vfs_read (kprobe_vfs_read State.empty 4 7 100 (some [47, 108, 111, 103]))
        4 7 600100 4096 true).1.start_times (get_key 4 7) = none
    ∧ (kretprobe_vfs_read (kprobe_vfs_read State.empty 4 7 100 (some [47, 108, 111, 103]))
        4 7 600100 4096 true).1.file_paths (get_key 4 7) = some [47, 108, 111, 103] := by
  decide

/-- C8 (counterexample): a sched_switch whose computed block duration is
exactly 1 ms — which is "at least 1 ms" — emits no event, because the code
tests `block_time > MIN_LATENCY_NS` strictly. -/
theorem c8_counterexample :
    MIN_LATENCY_NS ≤ calc_latency 1000000 0
    ∧ (tracepoint_sched_switch
        { State.empty with start_times := PMap.empty.upd (get_key 5 0) 0 }
        5 7 1000000 1000000 1000001 true).2 = [] := by
  decide

/-- C8 (amended): for a sched_switch whose previous task has an outstanding
`start_times[prev_pid<<32|0]` entry and whose scratch buffer is available,
an `EVENT_SCHED_SWITCH` with `latency_ns` equal to the block duration is
emitted iff the duration strictly exceeds 1 ms (durations ≤ 1 ms are
suppressed), and afterwards `start_times[next_pid<<32|0]` is set to the
fresh clock read whenever `next_pid > 0`. -/
theorem c8_sched_switch_amended (s : State)
    (prev_pid next_pid ts_event ts_lat ts_next start : Nat)
    (hprev : 0 < prev_pid)
    (hstart : s.start_times (get_key prev_pid 0) = some start) :
    (MIN_LATENCY_NS < calc_latency ts_lat start →
      (tracepoint_sched_switch s prev_pid next_pid ts_event ts_lat ts_next true).2 =
        [{ timestamp := ts_event, pid := prev_pid, etype := EType.SCHED_SWITCH,
           latency_ns := calc_latency ts_lat start, error := 0, bytes := 0,
           tcp_state := 0, target := [], details := [] }])
    ∧ (calc_latency ts_lat start ≤ MIN_LATENCY_NS →
      (tracepoint_sched_switch s prev_pid next_pid ts_event ts_lat ts_next true).2 = [])
    ∧ (0 < next_pid →
      (tracepoint_sched_switch s prev_pid next_pid ts_event ts_lat ts_next
          true).1.start_times (get_key next_pid 0) = some ts_next) := by
  refine ⟨?_, ?_, ?_⟩
  · intro hgt
    simp [tracepoint_sched_switch, hprev, hstart, hgt]
  · intro hle
    have : ¬ (MIN_LATENCY_NS < calc_latency ts_lat start) := by omega
    simp [tracepoint_sched_switch, hprev, hstart, this]
  · intro hnext
    by_cases hgt : MIN_LATENCY_NS < calc_latency ts_lat start
    · simp [tracepoint_sched_switch, sched_next_update, hprev, hstart, hgt, hnext,
        PMap.upd_self]
    · simp [tracepoint_sched_switch, sched_next_update, hprev, hstart, hgt, hnext,
        PMap.upd_self]

/-- C8 (witness): the amended theorem applied at a concrete 3 ms block. -/
theorem c8_sched_switch_amended_witness :
    (tracepoint_sched_switch
        { State.empty with start_times := PMap.empty.upd (get_key 5 0) 0 }
        5 7 3000000 3000000 3000005 true).2 =
      [{ timestamp := 3000000, pid := 5, etype := EType.SCHED_SWITCH,
         latency_ns := calc_latency 3000000 0, error := 0, bytes := 0, tcp_state := 0,
         target := [], details := [] }]
    ∧ (tracepoint_sched_switch
        { State.empty with start_times := PMap.empty.upd (get_key 5 0) 0 }
        5 7 3000000 3000000 3000005 true).1.start_times (get_key 7 0) = some 3000005 := by
  have h := c8_sched_switch_amended
    { State.empty with start_times := PMap.empty.upd (get_key 5 0) 0 }
    5 7 3000000 3000000 3000005 0 (by decide) (by decide)
  exact ⟨h.1 (by decide), h.2.2 (by decide)⟩

/-- C6 (per-step lemma): one acquire emits `EVENT_POOL_ACQUIRE` exactly when
it performs an `in_use` 0-to-1 transition (creation included). -/
theorem countAcquire_step (s : State) (pid tid key now db : Nat) :
    countAcquireEvents (handle_pool_acquire s pid tid key now db).2 =
      (if zeroToOne (s.pool_states key)
          ((handle_pool_acquire s pid tid key now db).1.pool_states key) then 1 else 0) := by
  unfold handle_pool_acquire
  cases h : s.pool_states key with
  | none => simp [countAcquireEvents, zeroToOne, PMap.upd_self, emit_pool_event]
  | some st =>
    by_cases h0 : st.in_use = 0
    · simp [h0, countAcquireEvents, zeroToOne, PMap.upd_self, emit_pool_event]
    · simp [h0, countAcquireEvents, zeroToOne, PMap.upd_self]

/-- C6: along any sequence of pool acquires on a key, the number of
`EVENT_POOL_ACQUIRE` emissions equals the number of `in_use` 0-to-1
transitions of `pool_states[K]`, counting creation as one. -/
theorem c6_pool_acquire_count_eq_transitions (pid tid key : Nat) (s : State)
    (l : List (Nat × Nat)) :
    (acquireRun pid tid key s l).2 = transCount pid tid key s l := by
  induction l generalizing s with
  | nil => rfl
  | cons hd tl ih =>
    obtain ⟨now, db⟩ := hd
    simp only [acquireRun, transCount]
    rw [countAcquire_step, ih]

theorem toS32_of_lt (n : Nat) (h : n < 2 ^ 31) : toS32 n = n := by
  unfold toS32
  split_ifs <;> omega

/-- C4 (counterexample): with `usage = 2^62` and `limit = 2^63` the u64
product `usage * 100` wraps, so the code computes utilization 0 while the
claim's exact-arithmetic formula gives `min 100 (usage*100/limit) = 50`. -/
theorem c4_counterexample :
    calculate_utilization (2 ^ 62) (2 ^ 63) = 0
    ∧ min 100 (2 ^ 62 * 100 / 2 ^ 63) = 50 := by
  decide

/-- C4 (amended): for all u64 inputs, utilization is 0 when the limit is 0
or `~0ULL`, 100 when `usage > limit`, and otherwise
`min 100 ((usage*100 mod 2^64) / limit)`; the claim's exact formula
`min 100 (usage*100/limit)` is recovered exactly when `usage * 100` does not
overflow u64; the alert level is 3/2/1/0 against the configured thresholds
with unset (absent or zero) slots defaulting to 80/90/95; and every
`EVENT_RESOURCE_LIMIT` event carries `0 ≤ error ≤ 100` — all of this with no
restriction on `usage` or `limit`. -/
theorem c4_utilization_amended (usage limit u rt now : Nat) (tw tc te : Option Nat)
    (b : Bool) :
    calculate_utilization usage limit =
        (if limit = 0 ∨ limit = U64_MAX then 0
         else if usage > limit then 100
         else min 100 (usage * 100 % 2 ^ 64 / limit))
    ∧ calculate_utilization usage limit ≤ 100
    ∧ (usage * 100 < 2 ^ 64 →
        calculate_utilization usage limit =
          (if limit = 0 ∨ limit = U64_MAX then 0 else min 100 (usage * 100 / limit)))
    ∧ check_alert_threshold tw tc te u =
        (if u ≥ defaultThreshold te 95 then 3
         else if u ≥ defaultThreshold tc 90 then 2
         else if u ≥ defaultThreshold tw 80 then 1
         else 0)
    ∧ ∀ e ∈ emit_resource_alert rt (calculate_utilization usage limit) usage now b,
        0 ≤ e.error ∧ e.error ≤ 100 := by
  have hle : calculate_utilization usage limit ≤ 100 := by
    simp only [calculate_utilization]
    split_ifs <;> omega
  have hchar : calculate_utilization usage limit =
      (if limit = 0 ∨ limit = U64_MAX then 0
       else if usage > limit then 100
       else min 100 (usage * 100 % 2 ^ 64 / limit)) := by
    simp only [calculate_utilization]
    by_cases hl : limit = 0 ∨ limit = U64_MAX
    · simp [hl]
    · push_neg at hl
      simp only [hl.1, hl.2, false_or, if_false, or_self]
      by_cases hu : usage > limit
      · simp [hu]
      · simp only [hu, if_false]
        generalize usage * 100 % 2 ^ 64 / limit = x
        split_ifs <;> omega
  refine ⟨hchar, hle, ?_, ?_, ?_⟩
  · intro husage
    rw [hchar]
    by_cases hl : limit = 0 ∨ limit = U64_MAX
    · simp [hl]
    · push_neg at hl
      have hlpos : 0 < limit := by omega
      have hmod : usage * 100 % 2 ^ 64 = usage * 100 := Nat.mod_eq_of_lt husage
      simp only [hl.1, hl.2, false_or, if_false, or_self, hmod]
      by_cases hu : usage > limit
      · have h1 : 100 ≤ usage * 100 / limit :=
          (Nat.le_div_iff_mul_le hlpos).mpr (by omega)
        simp only [hu, if_true]
        omega
      · simp [hu]
  · cases tw <;> cases tc <;> cases te <;> rfl
  · intro e he
    unfold emit_resource_alert at he
    cases b with
    | false => simp at he
    | true =>
      simp only [if_true, List.mem_singleton] at he
      subst he
      simp only
      rw [toS32_of_lt _ (by omega)]
      constructor <;> [positivity; exact_mod_cast hle]

/-- C4 (witness): the amended theorem at `usage = 950`, `limit = 1000`,
unset thresholds, utilization 95, discharging the no-overflow hypothesis of
the exactness conjunct. -/
theorem c4_utilization_amended_witness :
    calculate_utilization 950 1000 = 95
    ∧ check_alert_threshold none none none 95 = 3
    ∧ ∀ e ∈ emit_resource_alert 0 (calculate_utilization 950 1000) 950 1 true,
        0 ≤ e.error ∧ e.error ≤ 100 := by
  have h := c4_utilization_amended 950 1000 95 0 1 none none none true
  refine ⟨?_, ?_, h.2.2.2.2⟩
  · rw [h.2.2.1 (by decide)]; decide
  · rw [h.2.2.2.1]; decide

theorem get_key_mod (q : Nat) : get_key q 0 % 2 ^ 32 = 0 := by
  unfold get_key; omega

theorem sched_next_update_ne (s : State) (next ts k : Nat) (hk : k ≠ get_key next 0) :
    (sched_next_update s next ts).start_times k = s.start_times k := by
  unfold sched_next_update
  split_ifs <;> simp [PMap.upd, hk]

/-- C10: the composite keys used by entry/exit probe pairs (low 32 bits =
`tid ≠ 0`) are disjoint from the keys used by the off-CPU tracker (low 32
bits = 0); consequently a sched_switch leaves every entry/exit key of
`start_times` untouched, and the `tcp_sendmsg` entry and exit probes leave
every off-CPU key untouched. -/
theorem c10_start_times_partition (s : State)
    (pid tid p now ts_e ts_l ts_n prev next : Nat) (ret : Int) (b : Bool)
    (htid : tid ≠ 0) (htid32 : tid < 2 ^ 32) :
    get_key pid tid ≠ get_key p 0
    ∧ (∀ k, k % 2 ^ 32 ≠ 0 →
        (tracepoint_sched_switch s prev next ts_e ts_l ts_n b).1.start_times k =
          s.start_times k)
    ∧ (kprobe_tcp_sendmsg s pid tid now).start_times (get_key p 0) =
        s.start_times (get_key p 0)
    ∧ (kretprobe_tcp_sendmsg s pid tid now ret b).1.start_times (get_key p 0) =
        s.start_times (get_key p 0) := by
  have hne : get_key p 0 ≠ get_key pid tid := by unfold get_key; omega
  refine ⟨by unfold get_key; omega, ?_, ?_, ?_⟩
  · intro k hk
    have hkp : k ≠ get_key prev 0 := by unfold get_key; omega
    have hkn : k ≠ get_key next 0 := by unfold get_key; omega
    unfold tracepoint_sched_switch
    by_cases hp : prev > 0
    · rw [if_pos hp]
      cases h2 : s.start_times (get_key prev 0) with
      | none =>
        simp only [h2]
        exact sched_next_update_ne _ _ _ _ hkn
      | some bs =>
        simp only [h2]
        by_cases h3 : calc_latency ts_l bs > MIN_LATENCY_NS
        · rw [if_pos h3]
          cases b with
          | true =>
            show (sched_next_update
                { s with start_times := s.start_times.del (get_key prev 0) }
                next ts_n).start_times k = s.start_times k
            rw [sched_next_update_ne _ _ _ _ hkn]
            exact PMap.del_ne _ _ _ hkp
          | false =>
            exact PMap.del_ne _ _ _ hkp
        · rw [if_neg h3]
          show (sched_next_update
              { s with start_times := s.start_times.del (get_key prev 0) }
              next ts_n).start_times k = s.start_times k
          rw [sched_next_update_ne _ _ _ _ hkn]
          exact PMap.del_ne _ _ _ hkp
    · rw [if_neg hp]
      exact sched_next_update_ne _ _ _ _ hkn
  · simp [kprobe_tcp_sendmsg, PMap.upd, hne]
  · unfold kretprobe_tcp_sendmsg
    cases h2 : s.start_times (get_key pid tid) with
    | none => simp [h2]
    | some start =>
      cases b with
      | false => simp [h2]
      | true =>
        cases h3 : s.socket_conns (get_key pid tid) <;>
          simp [h2, h3, PMap.del, hne]

/-- C10 (witness): the partition theorem at concrete pids and tids. -/
theorem c10_start_times_partition_witness :
    get_key 3 5 ≠ get_key 3 0
    ∧ (tracepoint_sched_switch State.empty 1 2 10 20 30 true).1.start_times (get_key 3 5) =
        State.empty.start_times (get_key 3 5)
    ∧ (kprobe_tcp_sendmsg State.empty 3 5 100).start_times (get_key 3 0) =
        State.empty.start_times (get_key 3 0)
    ∧ (kretprobe_tcp_sendmsg State.empty 3 5 100 0 true).1.start_times (get_key 3 0) =
        State.empty.start_times (get_key 3 0) := by
  have h := c10_start_times_partition State.empty 3 5 3 100 10 20 30 1 2 0 true
    (by decide) (by decide)
  exact ⟨h.1, h.2.1 (get_key 3 5) (by decide), h.2.2.1, h.2.2.2⟩

theorem bswap32_bytes (a b c d : Nat) (ha : a < 256) (hb : b < 256) (hc : c < 256)
    (hd : d < 256) :
    bswap32 (a * 2 ^ 24 + b * 2 ^ 16 + c * 2 ^ 8 + d) =
      d * 2 ^ 24 + c * 2 ^ 16 + b * 2 ^ 8 + a := by
  unfold bswap32; omega

theorem bswap16_involution (p : Nat) (hp : p < 65536) : bswap16 (bswap16 p) = p := by
  unfold bswap16
  have h3 : (p % 256 * 256 + p / 256 % 256) % 256 = p / 256 % 256 := by omega
  have h4 : (p % 256 * 256 + p / 256 % 256) / 256 = p % 256 := by omega
  rw [h3, h4]
  omega

/-- The 21 bytes actually produced by `format_ip_port` (all index guards of
the write chain are satisfied). -/
theorem format_ip_port_build (ip p : Nat) :
    format_ip_port ip p =
      [48 + ip / 2 ^ 24 % 256 / 100 % 10, 48 + ip / 2 ^ 24 % 256 / 10 % 10,
       48 + ip / 2 ^ 24 % 256 % 10, 46,
       48 + ip / 2 ^ 16 % 256 / 100 % 10, 48 + ip / 2 ^ 16 % 256 / 10 % 10,
       48 + ip / 2 ^ 16 % 256 % 10, 46,
       48 + ip / 2 ^ 8 % 256 / 100 % 10, 48 + ip / 2 ^ 8 % 256 / 10 % 10,
       48 + ip / 2 ^ 8 % 256 % 10, 46,
       48 + ip % 256 / 100 % 10, 48 + ip % 256 / 10 % 10, 48 + ip % 256 % 10, 58,
       48 + p / 10000 % 10, 48 + p / 1000 % 10, 48 + p / 100 % 10, 48 + p / 10 % 10,
       48 + p % 10] := by
  norm_num [format_ip_port, wr]

/-- The source formatter agrees with the spec's zero-padded rendering on
every in-range octet quadruple and port. -/
theorem format_ip_port_spec (a b c d p : Nat) (ha : a < 256) (hb : b < 256)
    (hc : c < 256) (hd : d < 256) (hp : p < 65536) :
    format_ip_port (a * 2 ^ 24 + b * 2 ^ 16 + c * 2 ^ 8 + d) p = ipPortSpec a b c d p := by
  rw [format_ip_port_build]
  simp only [ipPortSpec, pad3, pad5, List.cons_append, List.nil_append, List.cons.injEq,
    and_true, true_and]
  omega

/-- C5 (code_bug evidence): at a `tcp_v4_connect` exit whose sockaddr reads
back as `{AF_INET, htons 443, htonl 10.0.0.1}`, the emitted `EVENT_CONNECT`
carries an *empty* target — the second `bpf_probe_read_user` that should
fetch `s_addr` is aimed at the probe's own stack copy and always fails —
while the claim (and the spec's scenario 1, whose expected rendering
`ipPortSpec` produces, as `format_ip_port_spec` shows the formatter would)
demands `"010.000.000.001:00443"`. -/
theorem c5_connect_target_empty_on_af_inet :
    (kretprobe_tcp_connect
        { State.empty with start_times := PMap.empty.upd (get_key 4 7) 100 }
        4 7 300 0
        (some { sin_family := 2, sin_port := bswap16 443,
                s_addr := bswap32 (10 * 2 ^ 24 + 0 * 2 ^ 16 + 0 * 2 ^ 8 + 1) })
        true).2 =
      [{ timestamp := 300, pid := 4, etype := EType.CONNECT, latency_ns := 200, error := 0,
         bytes := 0, tcp_state := 0, target := [], details := [] }]
    ∧ ipPortSpec 10 0 0 1 443 =
        [48, 49, 48, 46, 48, 48, 48, 46, 48, 48, 48, 46, 48, 48, 49, 58,
         48, 48, 52, 52, 51]
    ∧ ([] : Str) ≠ ipPortSpec 10 0 0 1 443 := by
  decide

/-- C7: for a FastCGI END_REQUEST record matched to a saved request, the
probe deletes `fastcgi_reqs[K ⊕ requestId]` on every return path, and when
the scratch buffer is available it emits `EVENT_FASTCGI_RESPONSE` with
the big-endian `appStatus` as `error` (bit-for-bit through the s32 field;
numerically equal whenever `appStatus < 2^31`), the clamped latency, and the
saved URI and method as `target` and `details`. -/
theorem c7_fastcgi_response_fields (s : State) (pid tid now : Nat) (h : List Nat)
    (req : FcgiReq) (hv : byteAt h 0 = 1) (ht : byteAt h 1 = 3)
    (hreq : s.fastcgi_reqs (get_key pid tid ^^^ (byteAt h 2 * 256 + byteAt h 3)) =
      some req) :
    (∀ b : Bool,
      (kprobe_unix_stream_sendmsg s pid tid now (some h) b).1.fastcgi_reqs
        (get_key pid tid ^^^ (byteAt h 2 * 256 + byteAt h 3)) = none)
    ∧ (kprobe_unix_stream_sendmsg s pid tid now (some h) true).2 =
      [{ timestamp := now, pid := pid, etype := EType.FASTCGI_RESPONSE,
         latency_ns := if now > req.start_ns then now - req.start_ns else 0,
         error := toS32 (byteAt h 8 * 2 ^ 24 + byteAt h 9 * 2 ^ 16 +
           byteAt h 10 * 2 ^ 8 + byteAt h 11),
         bytes := 0, tcp_state := 0, target := req.uri, details := req.fmethod }]
    ∧ (byteAt h 8 * 2 ^ 24 + byteAt h 9 * 2 ^ 16 + byteAt h 10 * 2 ^ 8 + byteAt h 11
          < 2 ^ 31 →
        ∀ e ∈ (kprobe_unix_stream_sendmsg s pid tid now (some h) true).2,
          e.error = ((byteAt h 8 * 2 ^ 24 + byteAt h 9 * 2 ^ 16 +
            byteAt h 10 * 2 ^ 8 + byteAt h 11 : Nat) : Int)) := by
  have hev : (kprobe_unix_stream_sendmsg s pid tid now (some h) true).2 =
      [{ timestamp := now, pid := pid, etype := EType.FASTCGI_RESPONSE,
         latency_ns := if now > req.start_ns then now - req.start_ns else 0,
         error := toS32 (byteAt h 8 * 2 ^ 24 + byteAt h 9 * 2 ^ 16 +
           byteAt h 10 * 2 ^ 8 + byteAt h 11),
         bytes := 0, tcp_state := 0, target := req.uri, details := req.fmethod }] := by
    simp [kprobe_unix_stream_sendmsg, hv, ht, hreq]
  refine ⟨?_, hev, ?_⟩
  · intro b
    cases b <;> simp [kprobe_unix_stream_sendmsg, hv, ht, hreq, PMap.del_self]
  · intro hlt e he
    rw [hev] at he
    simp only [List.mem_singleton] at he
    subst he
    show toS32 (byteAt h 8 * 2 ^ 24 + byteAt h 9 * 2 ^ 16 +
      byteAt h 10 * 2 ^ 8 + byteAt h 11) = _
    rw [toS32_of_lt _ hlt]

/-- C7 (witness): END_REQUEST for requestId 7, appStatus 5, saved request
`{start_ns := 100, uri := "/index", method := "GET"}`, sent at t = 250. -/
theorem c7_fastcgi_response_fields_witness :
    (kprobe_unix_stream_sendmsg
        { State.empty with
          fastcgi_reqs := PMap.empty.upd (get_key 4 7 ^^^ 7)
            { start_ns := 100, uri := [47, 105, 110, 100, 101, 120],
              fmethod := [71, 69, 84] } }
        4 7 250 (some [1, 3, 0, 7, 0, 8, 0, 0, 0, 0, 0, 5, 0, 0, 0, 0]) true).2 =
      [{ timestamp := 250, pid := 4, etype := EType.FASTCGI_RESPONSE,
         latency_ns := 150, error := 5, bytes := 0, tcp_state := 0,
         target := [47, 105, 110, 100, 101, 120], details := [71, 69, 84] }]
    ∧ (kprobe_unix_stream_sendmsg
        { State.empty with
          fastcgi_reqs := PMap.empty.upd (get_key 4 7 ^^^ 7)
            { start_ns := 100, uri := [47, 105, 110, 100, 101, 120],
              fmethod := [71, 69, 84] } }
        4 7 250 (some [1, 3, 0, 7, 0, 8, 0, 0, 0, 0, 0, 5, 0, 0, 0, 0]) true).1.fastcgi_reqs
        (get_key 4 7 ^^^ 7) = none := by
  have h := c7_fastcgi_response_fields
    { State.empty with
      fastcgi_reqs := PMap.empty.upd (get_key 4 7 ^^^ 7)
        { start_ns := 100, uri := [47, 105, 110, 100, 101, 120],
          fmethod := [71, 69, 84] } }
    4 7 250 [1, 3, 0, 7, 0, 8, 0, 0, 0, 0, 0, 5, 0, 0, 0, 0]
    { start_ns := 100, uri := [47, 105, 110, 100, 101, 120], fmethod := [71, 69, 84] }
    (by decide) (by decide) (by decide)
  exact ⟨h.2.1.trans (by decide), h.1 true⟩

/-- C9: the `rd_kafka_produce` entry probe overwrites `redis_cmds[K]` with
the produced topic's name (the empty string when the handle is unknown), so
a pending Redis command name is replaced, and the produce exit probe deletes
`redis_cmds[K]` on both of its cleanup paths. -/
theorem c9_kafka_produce_reuses_redis_cmds (s s2 : State)
    (pid tid now now2 rkt plen start : Nat) (ret : Int) (b : Bool)
    (hs2 : s2.start_times (get_key pid tid) = some start) :
    (s.kafka_topic_names rkt = none →
        (uprobe_rd_kafka_produce s pid tid now rkt plen).redis_cmds (get_key pid tid) =
          some [])
    ∧ (∀ t, s.kafka_topic_names rkt = some t →
        (uprobe_rd_kafka_produce s pid tid now rkt plen).redis_cmds (get_key pid tid) =
          some t)
    ∧ (uprobe_rd_kafka_produce s pid tid now rkt plen).start_times (get_key pid tid) =
        some now
    ∧ (uretprobe_rd_kafka_produce s2 pid tid now2 ret b).1.redis_cmds (get_key pid tid) =
        none := by
  refine ⟨?_, ?_, ?_, ?_⟩
  · intro hn
    unfold uprobe_rd_kafka_produce
    split_ifs <;> simp [hn, PMap.upd_self]
  · intro t htp
    unfold uprobe_rd_kafka_produce
    split_ifs <;> simp [htp, PMap.upd_self]
  · unfold uprobe_rd_kafka_produce
    split_ifs <;> simp [PMap.upd_self]
  · unfold uretprobe_rd_kafka_produce
    cases b <;> simp [hs2, PMap.del_self]

/-- C9 (witness): a pending `"GET"` Redis command is replaced by the topic
name `"topicA"` at produce entry, and deleted at produce exit. -/
theorem c9_kafka_produce_reuses_redis_cmds_witness :
    (uprobe_rd_kafka_produce
        { State.empty with
          redis_cmds := PMap.empty.upd (get_key 4 7) [71, 69, 84],
          kafka_topic_names := PMap.empty.upd 5000 [116, 111, 112, 105, 99, 65] }
        4 7 100 5000 64).redis_cmds (get_key 4 7) = some [116, 111, 112, 105, 99, 65]
    ∧ (uretprobe_rd_kafka_produce
        { State.empty with
          start_times := PMap.empty.upd (get_key 4 7) 100,
          redis_cmds := PMap.empty.upd (get_key 4 7) [116, 111, 112, 105, 99, 65] }
        4 7 200 0 true).1.redis_cmds (get_key 4 7) = none := by
  have h := c9_kafka_produce_reuses_redis_cmds
    { State.empty with
      redis_cmds := PMap.empty.upd (get_key 4 7) [71, 69, 84],
      kafka_topic_names := PMap.empty.upd 5000 [116, 111, 112, 105, 99, 65] }
    { State.empty with
      start_times := PMap.empty.upd (get_key 4 7) 100,
      redis_cmds := PMap.empty.upd (get_key 4 7) [116, 111, 112, 105, 99, 65] }
    4 7 100 200 5000 64 100 0 true (by decide)
  exact ⟨h.2.1 [116, 111, 112, 105, 99, 65] (by decide), h.2.2.2⟩

end Podtrace
